import Mathlib

/-!
Verification of the home-ownership cash-flow model.

This file gives a shallow embedding, over exact rational arithmetic, of the
cash-flow projection and aggregation routines of `home_ownership.py`:
the opportunity-cost accumulator (`investment_return`,
`investment_return_on_stream`), the up-front costs, the ownership cost
stream, the mortgage amortization stream, the two rent streams, and the
two scenario evaluators (`Home.simulate`, `Rental.simulate`).

Python floats are modelled as exact rationals; the Python
`ZeroDivisionError` / `ValueError` raised inside the mortgage payment
formula is modelled by an `Option` result, `none` standing for the raised
exception and propagating through the evaluators exactly as an uncaught
Python exception would.
-/

/-- The scenario configuration dictionary `d` of the source.  Field names
follow the dictionary keys.  Yearly counts are naturals, money and rates
are exact rationals. -/
structure Config where
  home_price : ℚ
  down_payment : ℚ
  maintenance : ℚ
  home_owners_insurance : ℚ
  mortgage_term : ℕ
  mortgage_rate : ℚ
  property_tax : ℚ
  marginal_tax_rate : ℚ
  stock_market : ℚ
  house_appreciation : ℚ
  years : ℕ
  income_rent : ℚ
  personal_rent : ℚ
  rent_rate : ℚ

/-- Source `investment_return(amount, annual_rate, months)`:
`amount * (1 + annual_rate/12) ** months - amount`. -/
def investment_return (amount annual_rate : ℚ) (months : ℕ) : ℚ :=
  amount * (1 + annual_rate / 12) ^ months - amount

/-- The loop of `investment_return_on_stream`: `months_left` starts at the
full stream length and decreases by one per element. -/
def irsAux (annual_rate : ℚ) : List ℚ → ℕ → ℚ
  | [], _ => 0
  | amount :: rest, months_left =>
      investment_return amount annual_rate months_left
        + irsAux annual_rate rest (months_left - 1)

/-- Source `investment_return_on_stream(amounts, annual_rate)`. -/
def investment_return_on_stream (amounts : List ℚ) (annual_rate : ℚ) : ℚ :=
  irsAux annual_rate amounts amounts.length

/-- Source `get_upfront_costs(d)`: the down payment and its opportunity
cost over the whole horizon. -/
def get_upfront_costs (d : Config) : ℚ × ℚ :=
  let down_payment := d.home_price * d.down_payment
  (down_payment, investment_return down_payment d.stock_market (d.years * 12))

/-- The per-year loop of `get_ownership_cost_stream`: the running
`home_value` is used for the year's cost, then appreciated for the next
year; twelve equal monthly entries are emitted per year. -/
def ownershipAux (d : Config) (home_value : ℚ) : ℕ → List ℚ
  | 0 => []
  | Nat.succ k =>
      let yearly_cost := home_value * d.property_tax * (1 - d.marginal_tax_rate)
        + home_value * d.maintenance + home_value * d.home_owners_insurance
      let monthly_cost := yearly_cost / 12
      List.replicate 12 monthly_cost ++ ownershipAux d (home_value * (1 + d.house_appreciation)) k

/-- Source `get_ownership_cost_stream(d)`. -/
def get_ownership_cost_stream (d : Config) : List ℚ :=
  ownershipAux d d.home_price d.years

/-- The month loop of `get_mortgage_cost_stream`: while the remaining
principal is positive, split the fixed payment into interest (tax-adjusted
on output) and principal; afterwards emit zeros.  First component is the
principal stream, second the after-tax interest stream. -/
def mortgageLoop (rate payment tax : ℚ) : ℚ → ℕ → List ℚ × List ℚ
  | _, 0 => ([], [])
  | principal_left, Nat.succ k =>
      if principal_left ≤ 0 then
        let rest := mortgageLoop rate payment tax principal_left k
        (0 :: rest.1, 0 :: rest.2)
      else
        let interest_portion := rate * principal_left
        let principal_portion := payment - interest_portion
        let rest := mortgageLoop rate payment tax (principal_left - principal_portion) k
        (principal_portion :: rest.1, interest_portion * (1 - tax) :: rest.2)

/-- Source `get_mortgage_cost_stream(d)`, returning the principal,
after-tax interest and total streams.  `none` models the Python
exception raised while evaluating the payment formula: `ValueError` when
`math.pow` sees a zero base with negative exponent, `ZeroDivisionError`
when the annuity denominator is zero (as happens for a zero rate). -/
def get_mortgage_cost_stream (d : Config) : Option (List ℚ × List ℚ × List ℚ) :=
  let principal := d.home_price * (1 - d.down_payment)
  let rate := d.mortgage_rate / 12
  let num_payments := d.mortgage_term * 12
  if 1 + rate = 0 ∧ 0 < num_payments then none
  else
    let denom := 1 - (1 + rate) ^ (-(num_payments : ℤ))
    if denom = 0 then none
    else
      let monthly_payment := principal * (rate / denom)
      let streams := mortgageLoop rate monthly_payment d.marginal_tax_rate principal (d.years * 12)
      some (streams.1, streams.2, List.zipWith (· + ·) streams.1 streams.2)

/-- One month of the amortization iteration acting on the remaining
principal only (the `principal_left` variable of the source loop). -/
def principalStep (rate payment p : ℚ) : ℚ :=
  if p ≤ 0 then p else p - (payment - rate * p)

/-- Remaining principal after `k` months of the amortization iteration. -/
def principalAfter (rate payment p : ℚ) : ℕ → ℚ
  | 0 => p
  | Nat.succ k => principalStep rate payment (principalAfter rate payment p k)

/-- The per-year loop of `Home.get_rent_stream`: twelve equal entries per
year, the rent growing at each year boundary. -/
def homeRentAux (rent growth : ℚ) : ℕ → List ℚ
  | 0 => []
  | Nat.succ k => List.replicate 12 rent ++ homeRentAux (rent * (1 + growth)) growth k

/-- Source `Home.get_rent_stream`: the untaxed stream of averted rent. -/
def Home.get_rent_stream (d : Config) : List ℚ :=
  homeRentAux d.personal_rent d.rent_rate d.years

/-- The per-year loop of `Rental.get_rent_stream`: each emitted entry is
the current rent after tax, the rent growing at each year boundary. -/
def rentalRentAux (rent growth tax : ℚ) : ℕ → List ℚ
  | 0 => []
  | Nat.succ k =>
      List.replicate 12 (rent * (1 - tax)) ++ rentalRentAux (rent * (1 + growth)) growth tax k

/-- Source `Rental.get_rent_stream`: the after-tax stream of collected
rent income. -/
def Rental.get_rent_stream (d : Config) : List ℚ :=
  rentalRentAux d.income_rent d.rent_rate d.marginal_tax_rate d.years

/-- Source line `home_value = self.d['home_price']` of both evaluators. -/
def home_value (d : Config) : ℚ := d.home_price

/-- Source line computing `home_return` in both evaluators: the
appreciation gain via `investment_return` over `years * 12` months. -/
def home_return (d : Config) : ℚ :=
  investment_return d.home_price d.house_appreciation (d.years * 12)

/-- Source line computing `mortgage_left` in both evaluators: original
financed principal minus the principal paid so far. -/
def remainingPrincipal (d : Config) (principal_stream : List ℚ) : ℚ :=
  d.home_price * (1 - d.down_payment) - principal_stream.sum

/-- The bottom line computed by `Home.simulate` once the mortgage streams
are available: buy-side total, plus the investment gain on the derived
stream of averted rent minus mortgage minus ownership, minus the
rent-side total. -/
def homeBottomLine (d : Config) (mort : List ℚ × List ℚ × List ℚ) : ℚ :=
  let down_payment := (get_upfront_costs d).1
  let down_payment_opportunity_cost := (get_upfront_costs d).2
  let mortgage_total_stream := mort.2.2
  let ownership_stream := get_ownership_cost_stream d
  let mortgage_left := remainingPrincipal d mort.1
  let bottom_line_buying := - ownership_stream.sum - mortgage_total_stream.sum
      - down_payment - down_payment_opportunity_cost
      + home_value d + home_return d - mortgage_left
  let rents := Home.get_rent_stream d
  let bottom_line_renting := - rents.sum
  let derived_income_stream :=
    List.zipWith (· - ·) (List.zipWith (· - ·) rents mortgage_total_stream) ownership_stream
  let derived_income_stream_investment_gain :=
    investment_return_on_stream derived_income_stream d.stock_market
  (bottom_line_buying + derived_income_stream_investment_gain) - bottom_line_renting

/-- Source `Home.simulate`, reduced to the scalar bottom line it reports;
a mortgage-formula exception propagates as `none`. -/
def Home.simulate (d : Config) : Option ℚ :=
  (get_mortgage_cost_stream d).map (homeBottomLine d)

/-- The bottom line computed by `Rental.simulate` once the mortgage
streams are available. -/
def rentalBottomLine (d : Config) (mort : List ℚ × List ℚ × List ℚ) : ℚ :=
  let down_payment := (get_upfront_costs d).1
  let down_payment_opportunity_cost := (get_upfront_costs d).2
  let mortgage_total_stream := mort.2.2
  let ownership_stream := get_ownership_cost_stream d
  let ownership_opportunity_cost :=
    investment_return_on_stream (List.zipWith (· + ·) mortgage_total_stream ownership_stream)
      d.stock_market
  let rents := Rental.get_rent_stream d
  let rents_investment_return := investment_return_on_stream rents d.stock_market
  let mortgage_left := remainingPrincipal d mort.1
  let bottom_line := - ownership_stream.sum - mortgage_total_stream.sum
      - ownership_opportunity_cost
      - down_payment - down_payment_opportunity_cost
      + rents.sum + rents_investment_return
      + home_value d + home_return d - mortgage_left
  bottom_line

/-- Source `Rental.simulate`, reduced to the scalar bottom line it
reports; a mortgage-formula exception propagates as `none`. -/
def Rental.simulate (d : Config) : Option ℚ :=
  (get_mortgage_cost_stream d).map (rentalBottomLine d)

/-- Bottom-line formula exactly as the specification states it (section
4.5 step 6): inflows minus outflows minus the down payment and its
opportunity cost plus sale proceeds minus remaining principal, with no
term for the opportunity cost of the net rent-minus-costs stream.  Sale
value and remaining principal are taken as the evaluator computes them,
so that this definition differs from the code only in the contested
net-stream term. -/
def specBottomLineHome (d : Config) : Option ℚ :=
  (get_mortgage_cost_stream d).map (fun mort =>
    (Home.get_rent_stream d).sum - (get_ownership_cost_stream d).sum - mort.2.2.sum
      - (get_upfront_costs d).1 - (get_upfront_costs d).2
      + (home_value d + home_return d) - remainingPrincipal d mort.1)

/-- Home sale value exactly as the specification states it (section 4.5
step 5): appreciation compounded once per year over the horizon. -/
def specHomeSaleValue (d : Config) : ℚ :=
  d.home_price * (1 + d.house_appreciation) ^ d.years

/-- Stream opportunity cost under the specification's parenthetical
reading in which the last element compounds not at all: element `i` of
`n` compounds for `n - 1 - i` months. -/
def specStreamOpportunityCost (l : List ℚ) (annual_rate : ℚ) : ℚ :=
  ∑ i in Finset.range l.length,
    investment_return (l.getD i 0) annual_rate (l.length - 1 - i)

/-- All-cash purchase over one year with unit monthly rates: the financed
principal is zero, ownership costs are zero, and the averted-rent stream
is twelve ones, so the net-stream investment gain is visible in the
bottom line. -/
def cfgAllCash : Config :=
  { home_price := 100000, down_payment := 1, maintenance := 0, home_owners_insurance := 0,
    mortgage_term := 1, mortgage_rate := 12, property_tax := 0, marginal_tax_rate := 0,
    stock_market := 12, house_appreciation := 0, years := 1,
    income_rent := 1, personal_rent := 1, rent_rate := 0 }

/-- A zero-year horizon: every stream is empty. -/
def cfgEmptyHorizon : Config :=
  { home_price := 0, down_payment := 0, maintenance := 0, home_owners_insurance := 0,
    mortgage_term := 1, mortgage_rate := 12, property_tax := 0, marginal_tax_rate := 0,
    stock_market := 0, house_appreciation := 0, years := 0,
    income_rent := 0, personal_rent := 0, rent_rate := 0 }

/-- Unit home price with annual appreciation 12 over one year, making
monthly and yearly compounding of the appreciation differ sharply. -/
def cfgAppreciationDemo : Config :=
  { home_price := 1, down_payment := 0, maintenance := 0, home_owners_insurance := 0,
    mortgage_term := 1, mortgage_rate := 12, property_tax := 0, marginal_tax_rate := 0,
    stock_market := 0, house_appreciation := 12, years := 1,
    income_rent := 0, personal_rent := 0, rent_rate := 0 }

/-- A configuration violating three stated domain constraints at once:
zero horizon, negative home price and a marginal tax rate of one. -/
def cfgInvalidFields : Config :=
  { home_price := -1, down_payment := 0, maintenance := 0, home_owners_insurance := 0,
    mortgage_term := 1, mortgage_rate := 12, property_tax := 0, marginal_tax_rate := 1,
    stock_market := 0, house_appreciation := 0, years := 0,
    income_rent := 0, personal_rent := 0, rent_rate := 0 }

/-- The reference configuration with the mortgage rate set to zero. -/
def cfgZeroRate : Config :=
  { home_price := 100000, down_payment := 1/5, maintenance := 1/100,
    home_owners_insurance := 7/1250, mortgage_term := 15, mortgage_rate := 0,
    property_tax := 17/1000, marginal_tax_rate := 9/25, stock_market := 3/50,
    house_appreciation := 3/100, years := 1,
    income_rent := 900, personal_rent := 900, rent_rate := 3/100 }

/-- A thirty-year zero-rate mortgage. -/
def cfgZeroRate30 : Config :=
  { home_price := 200000, down_payment := 0, maintenance := 0, home_owners_insurance := 0,
    mortgage_term := 30, mortgage_rate := 0, property_tax := 0, marginal_tax_rate := 0,
    stock_market := 0, house_appreciation := 0, years := 30,
    income_rent := 0, personal_rent := 0, rent_rate := 0 }

/-- A one-year loan at monthly rate one on a principal of 4095: the
payment is exactly 4096 and the remaining principal after month `k` is
`4096 - 2 ^ k`, retiring the loan exactly at month twelve. -/
def cfgPow2Loan : Config :=
  { home_price := 4095, down_payment := 0, maintenance := 0, home_owners_insurance := 0,
    mortgage_term := 1, mortgage_rate := 12, property_tax := 0, marginal_tax_rate := 0,
    stock_market := 0, house_appreciation := 0, years := 1,
    income_rent := 0, personal_rent := 0, rent_rate := 0 }

/-- Unit cost rates over a two-year horizon for the ownership stream. -/
def cfgOwnershipDemo : Config :=
  { home_price := 1, down_payment := 0, maintenance := 1, home_owners_insurance := 1,
    mortgage_term := 1, mortgage_rate := 12, property_tax := 1, marginal_tax_rate := 0,
    stock_market := 0, house_appreciation := 1, years := 2,
    income_rent := 0, personal_rent := 0, rent_rate := 0 }

/-- Unit rents doubling yearly with a tax rate of one half, over two
years, for the rent streams. -/
def cfgRentDemo : Config :=
  { home_price := 1, down_payment := 0, maintenance := 0, home_owners_insurance := 0,
    mortgage_term := 1, mortgage_rate := 12, property_tax := 0, marginal_tax_rate := 1/2,
    stock_market := 0, house_appreciation := 0, years := 2,
    income_rent := 1, personal_rent := 1, rent_rate := 1 }

section Lemmas

theorem investment_return_add (a b r : ℚ) (m : ℕ) :
    investment_return (a + b) r m = investment_return a r m + investment_return b r m := by
  unfold investment_return; ring

theorem investment_return_neg (a r : ℚ) (m : ℕ) :
    investment_return (-a) r m = - investment_return a r m := by
  unfold investment_return; ring

theorem investment_return_zero (r : ℚ) (m : ℕ) : investment_return 0 r m = 0 := by
  unfold investment_return; ring

theorem irsAux_add (r : ℚ) :
    ∀ (s t : List ℚ) (n : ℕ), s.length = t.length →
      irsAux r (List.zipWith (· + ·) s t) n = irsAux r s n + irsAux r t n := by
  intro s
  induction s with
  | nil =>
    intro t n h
    have : t = [] := List.eq_nil_of_length_eq_zero h.symm
    subst this
    simp [irsAux]
  | cons a s ih =>
    intro t n h
    cases t with
    | nil => simp at h
    | cons b t =>
      simp only [List.zipWith_cons_cons, irsAux, investment_return_add]
      rw [ih t (n - 1) (by simpa using h)]
      ring

theorem irsAux_sub (r : ℚ) :
    ∀ (s t : List ℚ) (n : ℕ), s.length = t.length →
      irsAux r (List.zipWith (· - ·) s t) n = irsAux r s n - irsAux r t n := by
  intro s
  induction s with
  | nil =>
    intro t n h
    have : t = [] := List.eq_nil_of_length_eq_zero h.symm
    subst this
    simp [irsAux]
  | cons a s ih =>
    intro t n h
    cases t with
    | nil => simp at h
    | cons b t =>
      simp only [List.zipWith_cons_cons, irsAux]
      rw [ih t (n - 1) (by simpa using h)]
      unfold investment_return
      ring

theorem irs_add (s t : List ℚ) (r : ℚ) (h : s.length = t.length) :
    investment_return_on_stream (List.zipWith (· + ·) s t) r
      = investment_return_on_stream s r + investment_return_on_stream t r := by
  unfold investment_return_on_stream
  rw [List.length_zipWith, h, min_self, irsAux_add r s t t.length h]

theorem irs_sub (s t : List ℚ) (r : ℚ) (h : s.length = t.length) :
    investment_return_on_stream (List.zipWith (· - ·) s t) r
      = investment_return_on_stream s r - investment_return_on_stream t r := by
  unfold investment_return_on_stream
  rw [List.length_zipWith, h, min_self, irsAux_sub r s t t.length h]

theorem irsAux_eq_sum (r : ℚ) :
    ∀ (l : List ℚ) (n : ℕ),
      irsAux r l n = ∑ i in Finset.range l.length, investment_return (l.getD i 0) r (n - i) := by
  intro l
  induction l with
  | nil => intro n; simp [irsAux]
  | cons a l ih =>
    intro n
    simp only [irsAux, List.length_cons, Finset.sum_range_succ']
    rw [ih (n - 1)]
    simp only [List.getD_cons_succ, List.getD_cons_zero, Nat.sub_zero]
    have hsub : ∀ i : ℕ, n - 1 - i = n - (i + 1) := by
      intro i; omega
    rw [Finset.sum_congr rfl fun i _ => by rw [hsub i]]
    ring

theorem irsAux_replicate_zero (r : ℚ) (n : ℕ) :
    ∀ m : ℕ, irsAux r (List.replicate n 0) m = 0 := by
  induction n with
  | zero => intro m; simp [irsAux]
  | succ k ih =>
    intro m
    simp only [List.replicate_succ, irsAux, investment_return_zero, ih (m - 1)]
    ring

theorem ownershipAux_getD (d : Config) :
    ∀ (k : ℕ) (hv : ℚ) (y m : ℕ), y < k → m < 12 →
      (ownershipAux d hv k).getD (12 * y + m) 0
        = hv * (1 + d.house_appreciation) ^ y
          * (d.property_tax * (1 - d.marginal_tax_rate) + d.maintenance
              + d.home_owners_insurance) / 12 := by
  intro k
  induction k with
  | zero => intro hv y m hy _; omega
  | succ k ih =>
    intro hv y m hy hm
    cases y with
    | zero =>
      simp only [ownershipAux]
      rw [List.getD_append _ _ _ _ (by simpa using hm)]
      rw [List.getD_eq_getElem _ _ (by simpa using hm), List.getElem_replicate]
      ring
    | succ y =>
      simp only [ownershipAux]
      rw [List.getD_append_right _ _ _ _ (by simp; omega)]
      have hidx : 12 * (y + 1) + m - (List.replicate 12
          ((hv * d.property_tax * (1 - d.marginal_tax_rate) + hv * d.maintenance
            + hv * d.home_owners_insurance) / 12)).length = 12 * y + m := by
        simp; omega
      rw [hidx, ih (hv * (1 + d.house_appreciation)) y m (by omega) hm]
      ring

theorem homeRentAux_getD (g : ℚ) :
    ∀ (k : ℕ) (rent : ℚ) (y m : ℕ), y < k → m < 12 →
      (homeRentAux rent g k).getD (12 * y + m) 0 = rent * (1 + g) ^ y := by
  intro k
  induction k with
  | zero => intro rent y m hy _; omega
  | succ k ih =>
    intro rent y m hy hm
    cases y with
    | zero =>
      simp only [homeRentAux]
      rw [List.getD_append _ _ _ _ (by simpa using hm)]
      rw [List.getD_eq_getElem _ _ (by simpa using hm), List.getElem_replicate]
      ring
    | succ y =>
      simp only [homeRentAux]
      rw [List.getD_append_right _ _ _ _ (by simp; omega)]
      have hidx : 12 * (y + 1) + m - (List.replicate 12 rent).length = 12 * y + m := by
        simp; omega
      rw [hidx, ih (rent * (1 + g)) y m (by omega) hm]
      ring

theorem rentalRentAux_eq_map (g tax : ℚ) :
    ∀ (k : ℕ) (rent : ℚ),
      rentalRentAux rent g tax k
        = (homeRentAux rent g k).map (fun x => (1 - tax) * x) := by
  intro k
  induction k with
  | zero => intro rent; simp [rentalRentAux, homeRentAux]
  | succ k ih =>
    intro rent
    simp only [rentalRentAux, homeRentAux, List.map_append, List.map_replicate]
    rw [ih (rent * (1 + g))]
    congr 1
    congr 1
    ring

end Lemmas

/-- C2 (amended): the home sale value used by both evaluators compounds
the annual appreciation rate monthly, equalling
`home_price * (1 + appreciation/12) ^ (years*12)`; and the remaining
mortgage principal equals the original financed principal minus the sum
of the principal stream. -/
theorem sale_value_monthly_compounding (d : Config) (ps : List ℚ) :
    home_value d + home_return d
        = d.home_price * (1 + d.house_appreciation / 12) ^ (d.years * 12)
      ∧ remainingPrincipal d ps = d.home_price * (1 - d.down_payment) - ps.sum := by
  constructor
  · unfold home_value home_return investment_return
    ring
  · rfl

/-- C2 (counterexample): with appreciation rate 12 over one year the sale
value the evaluators use, `home_value + home_return = 4096`, differs from
the specification's yearly-compounded `home_price * (1+rate)^years = 13`. -/
theorem sale_value_counterexample :
    home_value cfgAppreciationDemo + home_return cfgAppreciationDemo
      ≠ specHomeSaleValue cfgAppreciationDemo := by
  norm_num [home_value, home_return, investment_return, specHomeSaleValue, cfgAppreciationDemo]

/-- C4 (amended): for a zero-rate mortgage the annuity denominator
`1 - (1+0)^(-num_payments)` is zero, so the amortization computation
fails with a division-by-zero error and produces no streams; there is no
zero-rate special case. -/
theorem zero_rate_mortgage_fails (d : Config) (h : d.mortgage_rate = 0) :
    get_mortgage_cost_stream d = none := by
  simp [get_mortgage_cost_stream, h]

/-- C4 (witness): the thirty-year zero-rate loan is rejected. -/
theorem zero_rate_mortgage_fails_witness :
    cfgZeroRate30.mortgage_rate = 0 ∧ get_mortgage_cost_stream cfgZeroRate30 = none :=
  ⟨rfl, zero_rate_mortgage_fails cfgZeroRate30 rfl⟩

/-- C4 (counterexample): on the reference configuration with
`mortgage_rate = 0` the amortization computation divides by zero (modelled
as `none`) instead of producing the constant stream
`principal / num_payments`. -/
theorem zero_rate_mortgage_counterexample :
    get_mortgage_cost_stream cfgZeroRate = none := by
  simp [get_mortgage_cost_stream, cfgZeroRate]

/-- C7 (amended): the stream opportunity cost is the sum over elements of
the lump opportunity cost of each element compounded for the number of
months remaining until the end of the stream, the first element for the
full stream length and the last element for one month (not zero months);
on an all-zero stream the result is 0 for every rate. -/
theorem stream_opportunity_cost_formula :
    (∀ (l : List ℚ) (r : ℚ),
        investment_return_on_stream l r
          = ∑ i in Finset.range l.length, investment_return (l.getD i 0) r (l.length - i))
      ∧ ∀ (n : ℕ) (r : ℚ), investment_return_on_stream (List.replicate n 0) r = 0 := by
  constructor
  · intro l r
    unfold investment_return_on_stream
    exact irsAux_eq_sum r l l.length
  · intro n r
    unfold investment_return_on_stream
    exact irsAux_replicate_zero r n _

/-- C7 (counterexample): on the one-element stream `[12]` at annual rate
12 the code compounds the last (and only) element for one month, giving
12, while the claim's reading that the last element compounds not at all
gives 0. -/
theorem stream_opportunity_cost_counterexample :
    investment_return_on_stream [12] 12 ≠ specStreamOpportunityCost [12] 12 := by
  norm_num [investment_return_on_stream, irsAux, specStreamOpportunityCost, investment_return]

/-- C8: every monthly entry of year `y` of the ownership-cost stream
equals `home_price * (1+appreciation)^y` times the combined cost rate
over 12, so the twelve months of a year are identical and consecutive
years scale exactly by `1 + appreciation`. -/
theorem ownership_stream_yearly_formula (d : Config) (y m : ℕ)
    (hy : y < d.years) (hm : m < 12) :
    (get_ownership_cost_stream d).getD (12 * y + m) 0
        = d.home_price * (1 + d.house_appreciation) ^ y
          * (d.property_tax * (1 - d.marginal_tax_rate) + d.maintenance
              + d.home_owners_insurance) / 12
      ∧ (y + 1 < d.years → ∀ m', m' < 12 →
          (get_ownership_cost_stream d).getD (12 * (y + 1) + m') 0
            = (1 + d.house_appreciation) * (get_ownership_cost_stream d).getD (12 * y + m) 0) := by
  constructor
  · exact ownershipAux_getD d d.years d.home_price y m hy hm
  · intro hy' m' hm'
    unfold get_ownership_cost_stream
    rw [ownershipAux_getD d d.years d.home_price (y + 1) m' hy' hm',
      ownershipAux_getD d d.years d.home_price y m hy hm]
    ring

/-- C8 (witness): with unit rates the first ownership entry is 3/12. -/
theorem ownership_stream_yearly_formula_witness :
    (0 < cfgOwnershipDemo.years ∧ (0 : ℕ) < 12)
      ∧ (get_ownership_cost_stream cfgOwnershipDemo).getD (12 * 0 + 0) 0
          = cfgOwnershipDemo.home_price * (1 + cfgOwnershipDemo.house_appreciation) ^ 0
            * (cfgOwnershipDemo.property_tax * (1 - cfgOwnershipDemo.marginal_tax_rate)
                + cfgOwnershipDemo.maintenance + cfgOwnershipDemo.home_owners_insurance) / 12
      ∧ (get_ownership_cost_stream cfgOwnershipDemo).getD (12 * (0 + 1) + 0) 0
          = (1 + cfgOwnershipDemo.house_appreciation)
            * (get_ownership_cost_stream cfgOwnershipDemo).getD (12 * 0 + 0) 0 :=
  ⟨⟨by decide, by decide⟩,
    (ownership_stream_yearly_formula cfgOwnershipDemo 0 0 (by decide) (by decide)).1,
    (ownership_stream_yearly_formula cfgOwnershipDemo 0 0 (by decide) (by decide)).2
      (by decide) 0 (by decide)⟩

/-- C9: within year `y` both rent streams are constant, the averted-rent
stream at `personal_rent * (1+growth)^y` and the collected-income stream
at `income_rent * (1+growth)^y * (1-tax)`; and for identical bases the
collected-income stream is the averted-cost stream scaled pointwise by
`1 - marginal_tax_rate`. -/
theorem rent_stream_yearly_formula (d : Config) (y m : ℕ)
    (hy : y < d.years) (hm : m < 12) :
    (Home.get_rent_stream d).getD (12 * y + m) 0 = d.personal_rent * (1 + d.rent_rate) ^ y
      ∧ (Rental.get_rent_stream d).getD (12 * y + m) 0
          = d.income_rent * (1 + d.rent_rate) ^ y * (1 - d.marginal_tax_rate)
      ∧ (d.income_rent = d.personal_rent →
          Rental.get_rent_stream d
            = (Home.get_rent_stream d).map (fun x => (1 - d.marginal_tax_rate) * x)) := by
  refine ⟨homeRentAux_getD d.rent_rate d.years d.personal_rent y m hy hm, ?_, ?_⟩
  · unfold Rental.get_rent_stream
    rw [rentalRentAux_eq_map d.rent_rate d.marginal_tax_rate d.years d.income_rent]
    have h0 : (0 : ℚ) = (1 - d.marginal_tax_rate) * 0 := by ring
    rw [h0, List.getD_map, homeRentAux_getD d.rent_rate d.years d.income_rent y m hy hm]
    ring
  · intro h
    unfold Rental.get_rent_stream Home.get_rent_stream
    rw [h]
    exact rentalRentAux_eq_map d.rent_rate d.marginal_tax_rate d.years d.personal_rent

/-- C9 (witness): second-year entries of the demo rent streams. -/
theorem rent_stream_yearly_formula_witness :
    (1 < cfgRentDemo.years ∧ (3 : ℕ) < 12)
      ∧ (Home.get_rent_stream cfgRentDemo).getD (12 * 1 + 3) 0
          = cfgRentDemo.personal_rent * (1 + cfgRentDemo.rent_rate) ^ 1
      ∧ (Rental.get_rent_stream cfgRentDemo).getD (12 * 1 + 3) 0
          = cfgRentDemo.income_rent * (1 + cfgRentDemo.rent_rate) ^ 1
            * (1 - cfgRentDemo.marginal_tax_rate)
      ∧ Rental.get_rent_stream cfgRentDemo
          = (Home.get_rent_stream cfgRentDemo).map
              (fun x => (1 - cfgRentDemo.marginal_tax_rate) * x) :=
  ⟨⟨by decide, by decide⟩,
    (rent_stream_yearly_formula cfgRentDemo 1 3 (by decide) (by decide)).1,
    (rent_stream_yearly_formula cfgRentDemo 1 3 (by decide) (by decide)).2.1,
    (rent_stream_yearly_formula cfgRentDemo 1 3 (by decide) (by decide)).2.2 rfl⟩

/-- C10: the opportunity-cost accumulator is additive and odd in its
amount argument, and consequently additive (and subtractive) on
pointwise sums and differences of same-length streams. -/
theorem investment_return_linear :
    (∀ (a b r : ℚ) (m : ℕ),
        investment_return (a + b) r m = investment_return a r m + investment_return b r m)
      ∧ (∀ (a r : ℚ) (m : ℕ), investment_return (-a) r m = - investment_return a r m)
      ∧ (∀ (s t : List ℚ) (r : ℚ), s.length = t.length →
          investment_return_on_stream (List.zipWith (· + ·) s t) r
            = investment_return_on_stream s r + investment_return_on_stream t r)
      ∧ ∀ (s t : List ℚ) (r : ℚ), s.length = t.length →
          investment_return_on_stream (List.zipWith (· - ·) s t) r
            = investment_return_on_stream s r - investment_return_on_stream t r :=
  ⟨investment_return_add, investment_return_neg, irs_add, irs_sub⟩

/-- C10 (witness): linearity instances on concrete streams. -/
theorem investment_return_linear_witness :
    investment_return (1 + 2) 12 3 = investment_return 1 12 3 + investment_return 2 12 3
      ∧ investment_return_on_stream (List.zipWith (· + ·) [1, 2] [3, 4]) 12
          = investment_return_on_stream [1, 2] 12 + investment_return_on_stream [3, 4] 12
      ∧ investment_return_on_stream (List.zipWith (· - ·) [1, 2] [3, 4]) 12
          = investment_return_on_stream [1, 2] 12 - investment_return_on_stream [3, 4] 12 :=
  ⟨investment_return_linear.1 1 2 12 3,
    investment_return_linear.2.2.1 [1, 2] [3, 4] 12 rfl,
    investment_return_linear.2.2.2 [1, 2] [3, 4] 12 rfl⟩

section MortgageLemmas

theorem getD_replicate_zero (n j : ℕ) : (List.replicate n (0 : ℚ)).getD j 0 = 0 := by
  rcases lt_or_le j n with h | h
  · rw [List.getD_eq_getElem _ _ (by simpa using h), List.getElem_replicate]
  · rw [List.getD_eq_default _ _ (by simpa using h)]

theorem mortgageLoop_nonpos (rate payment tax p : ℚ) :
    ∀ n : ℕ, p ≤ 0 →
      mortgageLoop rate payment tax p n = (List.replicate n 0, List.replicate n 0) := by
  intro n
  induction n with
  | zero => intro _; rfl
  | succ k ih =>
    intro hp
    simp only [mortgageLoop, if_pos hp, ih hp, List.replicate_succ]

theorem mortgageLoop_succ (rate payment tax p : ℚ) (n : ℕ) :
    mortgageLoop rate payment tax p (n + 1)
      = ((if p ≤ 0 then 0 else payment - rate * p)
            :: (mortgageLoop rate payment tax (principalStep rate payment p) n).1,
         (if p ≤ 0 then 0 else rate * p * (1 - tax))
            :: (mortgageLoop rate payment tax (principalStep rate payment p) n).2) := by
  by_cases h : p ≤ 0 <;> simp [mortgageLoop, principalStep, h]

theorem mortgageLoop_length (rate payment tax : ℚ) :
    ∀ (n : ℕ) (p : ℚ),
      (mortgageLoop rate payment tax p n).1.length = n
        ∧ (mortgageLoop rate payment tax p n).2.length = n := by
  intro n
  induction n with
  | zero => intro p; exact ⟨rfl, rfl⟩
  | succ k ih =>
    intro p
    rw [mortgageLoop_succ]
    simp only [List.length_cons, (ih (principalStep rate payment p)).1,
      (ih (principalStep rate payment p)).2, and_self]

theorem principalAfter_step_comm (rate payment p : ℚ) :
    ∀ k : ℕ, principalAfter rate payment (principalStep rate payment p) k
      = principalAfter rate payment p (k + 1) := by
  intro k
  induction k with
  | zero => rfl
  | succ k ih =>
    show principalStep rate payment (principalAfter rate payment (principalStep rate payment p) k)
      = principalStep rate payment (principalAfter rate payment p (k + 1))
    rw [ih]

theorem principalAfter_nonpos_stable (rate payment p : ℚ) (hp : p ≤ 0) :
    ∀ k : ℕ, principalAfter rate payment p k = p := by
  intro k
  induction k with
  | zero => rfl
  | succ k ih =>
    show principalStep rate payment (principalAfter rate payment p k) = p
    rw [ih]
    exact if_pos hp

theorem principalAfter_add (rate payment p : ℚ) (a : ℕ) :
    ∀ b : ℕ, principalAfter rate payment p (a + b)
      = principalAfter rate payment (principalAfter rate payment p a) b := by
  intro b
  induction b with
  | zero => rfl
  | succ k ih =>
    show principalStep rate payment (principalAfter rate payment p (a + k))
      = principalStep rate payment (principalAfter rate payment (principalAfter rate payment p a) k)
    rw [ih]

theorem mortgageLoop_sum (rate payment tax : ℚ) :
    ∀ (n : ℕ) (p : ℚ),
      (mortgageLoop rate payment tax p n).1.sum = p - principalAfter rate payment p n := by
  intro n
  induction n with
  | zero => intro p; simp [mortgageLoop, principalAfter]
  | succ k ih =>
    intro p
    rw [mortgageLoop_succ]
    simp only [List.sum_cons, ih (principalStep rate payment p),
      principalAfter_step_comm rate payment p k]
    have hstep : (if p ≤ 0 then (0 : ℚ) else payment - rate * p) + principalStep rate payment p
        = p := by
      unfold principalStep
      split_ifs <;> ring
    linarith [hstep]

theorem principalAfter_annuity (r p0 : ℚ) (n : ℕ) (hr : 0 < r) (hp : 0 < p0) (hn : 0 < n) :
    ∀ k, k ≤ n →
      principalAfter r (p0 * (r / (1 - ((1 + r) ^ n)⁻¹))) p0 k
        = p0 * ((1 + r) ^ n - (1 + r) ^ k) / ((1 + r) ^ n - 1) := by
  have h1 : (1 : ℚ) < 1 + r := by linarith
  have hpow : (1 : ℚ) < (1 + r) ^ n := one_lt_pow₀ h1 hn.ne'
  have hD : (0 : ℚ) < (1 + r) ^ n - 1 := by linarith
  have hne : ((1 : ℚ) + r) ^ n ≠ 0 := by positivity
  intro k
  induction k with
  | zero =>
    intro _
    rw [pow_zero, mul_div_assoc, div_self hD.ne', mul_one]
    rfl
  | succ k ih =>
    intro hk1
    have hk : k ≤ n := by omega
    have hkn : k < n := by omega
    have hlt : (1 + r) ^ k < (1 + r) ^ n := pow_lt_pow_right₀ h1 hkn
    have hpk : 0 < p0 * ((1 + r) ^ n - (1 + r) ^ k) / ((1 + r) ^ n - 1) :=
      div_pos (mul_pos hp (by linarith)) hD
    show principalStep r (p0 * (r / (1 - ((1 + r) ^ n)⁻¹)))
        (principalAfter r (p0 * (r / (1 - ((1 + r) ^ n)⁻¹))) p0 k) = _
    rw [ih hk]
    unfold principalStep
    rw [if_neg (not_le.mpr hpk)]
    have hden : 1 - ((1 + r) ^ n)⁻¹ ≠ 0 := by
      have : ((1 + r) ^ n)⁻¹ < 1 := by
        rw [inv_lt_one_iff₀]
        right
        exact hpow
      linarith
    field_simp
    ring

theorem mortgage_some_spec (d : Config) (ps ints total : List ℚ)
    (hm : get_mortgage_cost_stream d = some (ps, ints, total)) :
    1 - ((1 + d.mortgage_rate / 12) ^ (d.mortgage_term * 12))⁻¹ ≠ 0
      ∧ ps = (mortgageLoop (d.mortgage_rate / 12)
            (d.home_price * (1 - d.down_payment) * (d.mortgage_rate / 12
              / (1 - ((1 + d.mortgage_rate / 12) ^ (d.mortgage_term * 12))⁻¹)))
            d.marginal_tax_rate (d.home_price * (1 - d.down_payment)) (d.years * 12)).1
      ∧ ints = (mortgageLoop (d.mortgage_rate / 12)
            (d.home_price * (1 - d.down_payment) * (d.mortgage_rate / 12
              / (1 - ((1 + d.mortgage_rate / 12) ^ (d.mortgage_term * 12))⁻¹)))
            d.marginal_tax_rate (d.home_price * (1 - d.down_payment)) (d.years * 12)).2
      ∧ total = List.zipWith (· + ·) ps ints := by
  simp only [get_mortgage_cost_stream] at hm
  split_ifs at hm with h1 h2
  rw [zpow_neg, zpow_natCast] at h2
  rw [zpow_neg, zpow_natCast] at hm
  simp only [Option.some.injEq, Prod.mk.injEq] at hm
  exact ⟨h2, hm.1.symm, hm.2.1.symm, by rw [← hm.2.2, hm.1, hm.2.1]⟩

end MortgageLemmas

/-- C5: once the remaining principal of the amortization iteration has
reached zero or below (after `k` months), every later principal-stream
entry and interest-stream entry is exactly 0, whatever the rate, payment,
tax shield and horizon — the loan is never over-paid and no later entry
is negative. -/
theorem amortization_stops_at_payoff (rate payment tax p : ℚ) (n k j : ℕ)
    (hk : principalAfter rate payment p k ≤ 0) (hj : k ≤ j) :
    (mortgageLoop rate payment tax p n).1.getD j 0 = 0
      ∧ (mortgageLoop rate payment tax p n).2.getD j 0 = 0 := by
  induction k generalizing p n j with
  | zero =>
    rw [mortgageLoop_nonpos rate payment tax p n hk]
    exact ⟨getD_replicate_zero n j, getD_replicate_zero n j⟩
  | succ k ih =>
    obtain ⟨j', rfl⟩ : ∃ j', j = j' + 1 := ⟨j - 1, by omega⟩
    cases n with
    | zero => simp [mortgageLoop]
    | succ m =>
      rw [mortgageLoop_succ]
      simp only [List.getD_cons_succ]
      exact ih (principalStep rate payment p) m j'
        (by rw [principalAfter_step_comm]; exact hk) (by omega)

/-- C5 (witness): a loan that starts paid off emits zeros. -/
theorem amortization_stops_at_payoff_witness :
    (principalAfter 1 5 0 0 ≤ 0 ∧ (0 : ℕ) ≤ 1)
      ∧ (mortgageLoop 1 5 0 0 3).1.getD 1 0 = 0
      ∧ (mortgageLoop 1 5 0 0 3).2.getD 1 0 = 0 :=
  ⟨⟨le_refl 0, by omega⟩,
    (amortization_stops_at_payoff 1 5 0 0 3 0 1 (le_refl 0) (by omega)).1,
    (amortization_stops_at_payoff 1 5 0 0 3 0 1 (le_refl 0) (by omega)).2⟩

/-- C6: for a valid loan (non-negative rate accepted by the payment
formula, non-negative principal, positive term) whose horizon in months
is at least the number of payments, the principal stream sums exactly to
the original financed principal: the loan is fully retired, exactly in
exact arithmetic. -/
theorem loan_fully_retired (d : Config) (ps ints total : List ℚ)
    (hrate : 0 ≤ d.mortgage_rate)
    (hp : 0 ≤ d.home_price * (1 - d.down_payment))
    (hterm : 0 < d.mortgage_term)
    (hhor : d.mortgage_term * 12 ≤ d.years * 12)
    (hm : get_mortgage_cost_stream d = some (ps, ints, total)) :
    ps.sum = d.home_price * (1 - d.down_payment) := by
  obtain ⟨hden, hps, _, _⟩ := mortgage_some_spec d ps ints total hm
  have hr : 0 < d.mortgage_rate := by
    rcases hrate.lt_or_eq with h | h
    · exact h
    · exfalso
      apply hden
      rw [← h]
      norm_num
  have hr12 : 0 < d.mortgage_rate / 12 := by positivity
  rw [hps, mortgageLoop_sum]
  have hzero : principalAfter (d.mortgage_rate / 12)
      (d.home_price * (1 - d.down_payment) * (d.mortgage_rate / 12
        / (1 - ((1 + d.mortgage_rate / 12) ^ (d.mortgage_term * 12 : ℕ))⁻¹)))
      (d.home_price * (1 - d.down_payment)) (d.years * 12) = 0 := by
    rcases hp.lt_or_eq with hp0 | hp0
    · obtain ⟨e, he⟩ : ∃ e, d.years * 12 = d.mortgage_term * 12 + e :=
        ⟨d.years * 12 - d.mortgage_term * 12, by omega⟩
      rw [he, principalAfter_add]
      have hmid := principalAfter_annuity (d.mortgage_rate / 12)
        (d.home_price * (1 - d.down_payment)) (d.mortgage_term * 12) hr12 hp0
        (by omega) (d.mortgage_term * 12) le_rfl
      rw [hmid]
      simp only [sub_self, mul_zero, zero_div]
      exact principalAfter_nonpos_stable _ _ 0 le_rfl e
    · rw [← hp0]
      exact principalAfter_nonpos_stable _ _ 0 le_rfl (d.years * 12)
  rw [hzero]
  ring

/-- C6 (witness): the power-of-two loan retires its principal of 4095 in
exactly twelve payments. -/
theorem loan_fully_retired_witness :
    (0 ≤ cfgPow2Loan.mortgage_rate
        ∧ 0 ≤ cfgPow2Loan.home_price * (1 - cfgPow2Loan.down_payment)
        ∧ 0 < cfgPow2Loan.mortgage_term
        ∧ cfgPow2Loan.mortgage_term * 12 ≤ cfgPow2Loan.years * 12)
      ∧ ([1, 2, 4, 8, 16, 32, 64, 128, 256, 512, 1024, 2048] : List ℚ).sum
          = cfgPow2Loan.home_price * (1 - cfgPow2Loan.down_payment) :=
  ⟨⟨by norm_num [cfgPow2Loan], by norm_num [cfgPow2Loan], by norm_num [cfgPow2Loan],
      by norm_num [cfgPow2Loan]⟩,
    loan_fully_retired cfgPow2Loan
      [1, 2, 4, 8, 16, 32, 64, 128, 256, 512, 1024, 2048]
      [4095, 4094, 4092, 4088, 4080, 4064, 4032, 3968, 3840, 3584, 3072, 2048]
      [4096, 4096, 4096, 4096, 4096, 4096, 4096, 4096, 4096, 4096, 4096, 4096]
      (by norm_num [cfgPow2Loan]) (by norm_num [cfgPow2Loan]) (by norm_num [cfgPow2Loan])
      (by norm_num [cfgPow2Loan])
      (by norm_num [get_mortgage_cost_stream, cfgPow2Loan, mortgageLoop])⟩

section EvaluatorLemmas

theorem ownershipAux_length (d : Config) :
    ∀ (k : ℕ) (hv : ℚ), (ownershipAux d hv k).length = k * 12 := by
  intro k
  induction k with
  | zero => intro hv; rfl
  | succ m ih =>
    intro hv
    simp only [ownershipAux, List.length_append, List.length_replicate,
      ih (hv * (1 + d.house_appreciation))]
    omega

theorem homeRentAux_length (g : ℚ) :
    ∀ (k : ℕ) (rent : ℚ), (homeRentAux rent g k).length = k * 12 := by
  intro k
  induction k with
  | zero => intro rent; rfl
  | succ m ih =>
    intro rent
    simp only [homeRentAux, List.length_append, List.length_replicate, ih (rent * (1 + g))]
    omega

theorem rentalRentAux_length (g tax : ℚ) (k : ℕ) (rent : ℚ) :
    (rentalRentAux rent g tax k).length = k * 12 := by
  rw [rentalRentAux_eq_map g tax k rent, List.length_map, homeRentAux_length g k rent]

theorem mortgage_isSome_of_positive_rate (d : Config)
    (hr : 0 < d.mortgage_rate) (ht : 0 < d.mortgage_term) :
    (get_mortgage_cost_stream d).isSome := by
  have h1 : (1 : ℚ) < 1 + d.mortgage_rate / 12 := by
    have : 0 < d.mortgage_rate / 12 := by positivity
    linarith
  have hpow : (1 : ℚ) < (1 + d.mortgage_rate / 12) ^ (d.mortgage_term * 12) :=
    one_lt_pow₀ h1 (by omega)
  have hinv : ((1 + d.mortgage_rate / 12) ^ (d.mortgage_term * 12))⁻¹ < 1 := by
    rw [inv_lt_one_iff₀]
    right
    exact hpow
  simp only [get_mortgage_cost_stream]
  split_ifs with hc1 hc2
  · exfalso
    linarith [hc1.1]
  · exfalso
    rw [zpow_neg, zpow_natCast] at hc2
    linarith [hc2]
  · rfl

end EvaluatorLemmas

/-- C3 (amended): the evaluators perform no configuration validation at
all: whenever the mortgage payment formula itself is well defined
(positive rate, positive term), both evaluations return a bottom line —
with no hypothesis on the horizon, the home price or the tax rate, so in
particular for `horizon_years = 0`, `home_price < 0` and
`marginal_tax_rate = 1`. -/
theorem evaluate_no_validation (d : Config)
    (hr : 0 < d.mortgage_rate) (ht : 0 < d.mortgage_term) :
    (Home.simulate d).isSome ∧ (Rental.simulate d).isSome := by
  obtain ⟨x, hx⟩ := Option.isSome_iff_exists.mp (mortgage_isSome_of_positive_rate d hr ht)
  constructor <;> simp [Home.simulate, Rental.simulate, hx]

/-- C3 (witness): the triply-invalid configuration is evaluated. -/
theorem evaluate_no_validation_witness :
    (0 < cfgInvalidFields.mortgage_rate ∧ 0 < cfgInvalidFields.mortgage_term)
      ∧ (Home.simulate cfgInvalidFields).isSome ∧ (Rental.simulate cfgInvalidFields).isSome :=
  ⟨⟨by norm_num [cfgInvalidFields], by norm_num [cfgInvalidFields]⟩,
    evaluate_no_validation cfgInvalidFields (by norm_num [cfgInvalidFields])
      (by norm_num [cfgInvalidFields])⟩

/-- C3 (counterexample): on the configuration violating `horizon_years
= 0`, `home_price < 0` and `marginal_tax_rate = 1` simultaneously, both
evaluations return the bottom line 0 instead of raising a validation
error before stream computation. -/
theorem evaluate_no_validation_counterexample :
    Home.simulate cfgInvalidFields = some 0 ∧ Rental.simulate cfgInvalidFields = some 0 := by
  constructor <;>
    norm_num [Home.simulate, Rental.simulate, homeBottomLine, rentalBottomLine,
      get_mortgage_cost_stream, cfgInvalidFields, mortgageLoop, get_upfront_costs,
      get_ownership_cost_stream, ownershipAux, Home.get_rent_stream, Rental.get_rent_stream,
      homeRentAux, rentalRentAux, investment_return_on_stream, irsAux, investment_return,
      home_value, home_return, remainingPrincipal]

/-- C1 (amended): in both modes the bottom line equals the claim's
formula `rents.sum - ownership.sum - mortgage_total.sum - down_payment -
down_payment_opportunity_cost + home_sale_value - remaining_principal`
PLUS the investment gain on the net stream `rents - mortgage_total -
ownership` at the reference rate (in the rental evaluator that term is
written as the rent stream's investment return minus the opportunity
cost of the cost streams, which is equal by linearity). -/
theorem bottom_line_formula (d : Config) (ps ints total : List ℚ)
    (hm : get_mortgage_cost_stream d = some (ps, ints, total)) :
    Home.simulate d
        = some ((Home.get_rent_stream d).sum - (get_ownership_cost_stream d).sum - total.sum
          - (get_upfront_costs d).1 - (get_upfront_costs d).2
          + (home_value d + home_return d) - remainingPrincipal d ps
          + investment_return_on_stream
              (List.zipWith (· - ·) (List.zipWith (· - ·) (Home.get_rent_stream d) total)
                (get_ownership_cost_stream d)) d.stock_market)
      ∧ Rental.simulate d
        = some ((Rental.get_rent_stream d).sum - (get_ownership_cost_stream d).sum - total.sum
          - (get_upfront_costs d).1 - (get_upfront_costs d).2
          + (home_value d + home_return d) - remainingPrincipal d ps
          + investment_return_on_stream
              (List.zipWith (· - ·) (List.zipWith (· - ·) (Rental.get_rent_stream d) total)
                (get_ownership_cost_stream d)) d.stock_market) := by
  obtain ⟨_, hps, hints, htot⟩ := mortgage_some_spec d ps ints total hm
  have lps : ps.length = d.years * 12 := by
    rw [hps]
    exact (mortgageLoop_length _ _ _ _ _).1
  have lints : ints.length = d.years * 12 := by
    rw [hints]
    exact (mortgageLoop_length _ _ _ _ _).2
  have ltot : total.length = d.years * 12 := by
    rw [htot, List.length_zipWith, lps, lints, min_self]
  have lown : (get_ownership_cost_stream d).length = d.years * 12 := by
    unfold get_ownership_cost_stream
    exact ownershipAux_length d d.years d.home_price
  constructor
  · unfold Home.simulate
    rw [hm]
    show some (homeBottomLine d (ps, ints, total)) = _
    congr 1
    simp only [homeBottomLine]
    ring
  · have lrent : (Rental.get_rent_stream d).length = d.years * 12 := by
      unfold Rental.get_rent_stream
      exact rentalRentAux_length d.rent_rate d.marginal_tax_rate d.years d.income_rent
    have hsub2 : investment_return_on_stream
        (List.zipWith (· - ·) (List.zipWith (· - ·) (Rental.get_rent_stream d) total)
          (get_ownership_cost_stream d)) d.stock_market
        = investment_return_on_stream (Rental.get_rent_stream d) d.stock_market
          - investment_return_on_stream total d.stock_market
          - investment_return_on_stream (get_ownership_cost_stream d) d.stock_market := by
      rw [irs_sub _ _ _ (by rw [List.length_zipWith, lrent, ltot, min_self, lown]),
        irs_sub _ _ _ (by rw [lrent, ltot])]
    have hadd : investment_return_on_stream
        (List.zipWith (· + ·) total (get_ownership_cost_stream d)) d.stock_market
        = investment_return_on_stream total d.stock_market
          + investment_return_on_stream (get_ownership_cost_stream d) d.stock_market :=
      irs_add _ _ _ (by rw [ltot, lown])
    unfold Rental.simulate
    rw [hm]
    show some (rentalBottomLine d (ps, ints, total)) = _
    congr 1
    simp only [rentalBottomLine]
    rw [hadd, hsub2]
    ring

/-- C1 (witness): on the empty-horizon configuration the mortgage
streams are empty and both bottom lines satisfy the amended formula. -/
theorem bottom_line_formula_witness :
    get_mortgage_cost_stream cfgEmptyHorizon = some ([], [], [])
      ∧ Home.simulate cfgEmptyHorizon
        = some ((Home.get_rent_stream cfgEmptyHorizon).sum
          - (get_ownership_cost_stream cfgEmptyHorizon).sum - List.sum []
          - (get_upfront_costs cfgEmptyHorizon).1 - (get_upfront_costs cfgEmptyHorizon).2
          + (home_value cfgEmptyHorizon + home_return cfgEmptyHorizon)
          - remainingPrincipal cfgEmptyHorizon []
          + investment_return_on_stream
              (List.zipWith (· - ·)
                (List.zipWith (· - ·) (Home.get_rent_stream cfgEmptyHorizon) [])
                (get_ownership_cost_stream cfgEmptyHorizon)) cfgEmptyHorizon.stock_market)
      ∧ Rental.simulate cfgEmptyHorizon
        = some ((Rental.get_rent_stream cfgEmptyHorizon).sum
          - (get_ownership_cost_stream cfgEmptyHorizon).sum - List.sum []
          - (get_upfront_costs cfgEmptyHorizon).1 - (get_upfront_costs cfgEmptyHorizon).2
          + (home_value cfgEmptyHorizon + home_return cfgEmptyHorizon)
          - remainingPrincipal cfgEmptyHorizon []
          + investment_return_on_stream
              (List.zipWith (· - ·)
                (List.zipWith (· - ·) (Rental.get_rent_stream cfgEmptyHorizon) [])
                (get_ownership_cost_stream cfgEmptyHorizon)) cfgEmptyHorizon.stock_market) :=
  ⟨by norm_num [get_mortgage_cost_stream, cfgEmptyHorizon, mortgageLoop],
    (bottom_line_formula cfgEmptyHorizon [] [] []
      (by norm_num [get_mortgage_cost_stream, cfgEmptyHorizon, mortgageLoop])).1,
    (bottom_line_formula cfgEmptyHorizon [] [] []
      (by norm_num [get_mortgage_cost_stream, cfgEmptyHorizon, mortgageLoop])).2⟩

/-- C1 (counterexample): on the all-cash configuration the bottom line
the evaluator reports differs from the specification's formula, which
omits the net-stream investment-gain term: the code yields
-409491810 where the formula yields -409499988. -/
theorem bottom_line_counterexample :
    Home.simulate cfgAllCash ≠ specBottomLineHome cfgAllCash := by
  norm_num [Home.simulate, specBottomLineHome, homeBottomLine, get_mortgage_cost_stream,
    cfgAllCash, mortgageLoop, get_upfront_costs, get_ownership_cost_stream, ownershipAux,
    Home.get_rent_stream, homeRentAux, investment_return_on_stream, irsAux,
    investment_return, home_value, home_return, remainingPrincipal]
